import Mathlib

/-!
Verification of the client-side session-manager and realtime-connection core.

The definitions below are a shallow embedding of the relevant JavaScript
modules:

- the Keycloak session hook (module-level globals, initKeycloak,
  setupTokenRefresh, logout, hasRole, notifyStateChange);
- the WebSocket hook (sendMessage and its outbound queue, the onopen
  flush, the onmessage dispatch, the onclose reconnect policy);
- the axios gateway interceptor (401 handling, the shared
  isRefreshingToken flag, incorrect-password tagging) together with the
  handleApiError status resolution of the error service.

JavaScript is single-threaded, so concurrent asynchronous callers are
modelled as sequential executions of the synchronous prefixes of the
corresponding functions, with explicit resumption steps for the code that
runs after an await.
-/

/-- Lifecycle state of the session manager: the module-level variable
initializationState ranges over idle, initializing, initialized, failed. -/
inductive InitState
  | idle
  | initializing
  | initialized
  | failed
deriving DecidableEq, Repr

/-- Module-level global state of the session manager that is relevant to
initialization: keycloakSingleton, keycloakInitPromise (modelled by whether
a live promise exists), initializationState, and a count of how many
identity-provider handshakes (new Keycloak + init) have been started. -/
structure KcGlobal where
  keycloakSingleton : Option Nat
  initPromiseLive : Bool
  state : InitState
  handshakeCount : Nat
deriving DecidableEq, Repr

/-- The global state before any initialize call. -/
def initialKcGlobal : KcGlobal :=
  { keycloakSingleton := none, initPromiseLive := false, state := .idle, handshakeCount := 0 }

/-- resetGlobalState: nulls the singleton and the init promise and returns
the lifecycle state to idle.  The handshake counter is history, not state,
so it is kept. -/
def resetGlobalStateKc (g : KcGlobal) : KcGlobal :=
  { g with keycloakSingleton := none, initPromiseLive := false, state := .idle }

/-- What a single initKeycloak caller obtains from the synchronous prefix of
the function (everything before its first await):
inflightPromise models the early return of keycloakInitPromise when the
state is already initializing (that promise resolves to the record holding
the keycloak instance and the authenticated flag); existingSingleton models
the early return of the stored singleton; creatorAwait models a caller that
proceeds to await keycloakInitPromise and finally returns the keycloak
instance itself. -/
inductive InitCallRes
  | inflightPromise
  | existingSingleton (inst : Nat)
  | creatorAwait
deriving DecidableEq, Repr

/-- Synchronous prefix of initKeycloak, faithful to the source order:
return the in-flight promise when initializing; return the singleton when
initialized and present; otherwise reset when failed, mark the state
initializing, and create the init promise (starting the provider
handshake) only when no promise exists yet. -/
def initKeycloakPrefix (g : KcGlobal) : KcGlobal × InitCallRes :=
  if g.state = .initializing then
    (g, .inflightPromise)
  else
    match g.state, g.keycloakSingleton with
    | .initialized, some inst => (g, .existingSingleton inst)
    | s0, _ =>
      let g1 := if s0 = .failed then resetGlobalStateKc g else g
      let g2 := { g1 with state := .initializing }
      if g2.initPromiseLive then (g2, .creatorAwait)
      else ({ g2 with initPromiseLive := true, handshakeCount := g2.handshakeCount + 1 },
            .creatorAwait)

/-- n callers run the synchronous prefix of initKeycloak one after another,
which is exactly what the single-threaded event loop does when all of them
are issued before the handshake resolves. -/
def initCallersLoop : Nat → KcGlobal → KcGlobal × List InitCallRes
  | 0, g => (g, [])
  | n + 1, g =>
    let p := initKeycloakPrefix g
    let q := initCallersLoop n p.1
    (q.1, p.2 :: q.2)

/-- n concurrent initialize calls starting from the pristine global state. -/
def runConcurrentInit (n : Nat) : KcGlobal × List InitCallRes :=
  initCallersLoop n initialKcGlobal

/-- Resolution of the single init promise with the keycloak instance inst:
the promise body stores the singleton and marks the state initialized. -/
def resolveInitSuccess (g : KcGlobal) (inst : Nat) : KcGlobal :=
  { g with keycloakSingleton := some inst, state := .initialized }

/-- The keycloak instance a given caller result resolves to, once the single
init promise has resolved with instance resolvedInst: the in-flight promise
resolves to a record containing that instance, the creator path returns the
instance itself, and the early singleton return carries its own instance. -/
def sessionOfRes (resolvedInst : Nat) : InitCallRes → Nat
  | .inflightPromise => resolvedInst
  | .creatorAwait => resolvedInst
  | .existingSingleton i => i

/-! ## WebSocket hook: outbound queue and onopen flush -/

/-- Connection state relevant to outbound traffic: whether the socket is
open, the outbound message queue (messageQueueRef), and the ordered log of
everything handed to the transport via socket.send. -/
structure ConnState where
  socketOpen : Bool
  messageQueue : List String
  transportLog : List String
deriving DecidableEq, Repr

/-- sendMessage: when the socket is open the serialized message goes to the
transport immediately; otherwise it is pushed onto the end of the outbound
queue (and a connect attempt is triggered, which does not touch the queue). -/
def sendMessage (s : ConnState) (m : String) : ConnState :=
  if s.socketOpen then { s with transportLog := s.transportLog ++ [m] }
  else { s with messageQueue := s.messageQueue ++ [m] }

/-- The while loop in onopen: shift the first queued message and hand it to
the transport, until the queue is empty. -/
def flushQueue : List String → List String → List String
  | log, [] => log
  | log, m :: rest => flushQueue (log ++ [m]) rest

/-- onopen: mark the socket open, flush every queued message to the
transport in queue order, then (when the in-band auth mode is configured)
send the authentication message. -/
def onSocketOpen (s : ConnState) (authMessage : Option String) : ConnState :=
  { socketOpen := true
    messageQueue := []
    transportLog := flushQueue s.transportLog s.messageQueue ++ authMessage.toList }

/-- A sequence of sendMessage calls. -/
def applySends (s : ConnState) (msgs : List String) : ConnState :=
  msgs.foldl sendMessage s

/-! ## WebSocket hook: inbound dispatch -/

/-- A registered inbound handler: an identifier together with a flag saying
whether invoking it throws an exception. -/
abbrev WSHandler := Nat × Bool

/-- eventListenersRef.current.get: look the event type up in the registry. -/
def lookupListeners (registry : List (String × List WSHandler)) (t : String) : List WSHandler :=
  match registry.find? (fun e => e.1 == t) with
  | some e => e.2
  | none => []

/-- listeners.forEach((handler) => handler(parsed)) with no try/catch around
the handler call: handlers run in list order, and the first handler that
throws is invoked but aborts the iteration, so no later handler runs. -/
def forEachInvoke : List WSHandler → List Nat
  | [] => []
  | (i, thr) :: rest => if thr then [i] else i :: forEachInvoke rest

/-- Observable outcome of one onmessage dispatch: whether the automatic
pong reply was sent, and which handlers were invoked, in order. -/
structure DispatchResult where
  pongSent : Bool
  invoked : List Nat
deriving DecidableEq, Repr

/-- The dispatch section of onmessage, faithful to the source order: a
parsed type equal to ping sends the automatic pong reply (with no early
return afterwards), then the handlers registered under the parsed type are
invoked via forEach whenever the listener list is non-empty. -/
def onMessageDispatch (registry : List (String × List WSHandler)) (msgType : String) :
    DispatchResult :=
  let pong := msgType == "ping"
  let listeners := lookupListeners registry msgType
  let invoked := if listeners.length > 0 then forEachInvoke listeners else []
  { pongSent := pong, invoked := invoked }

/-! ## WebSocket hook: reconnect state machine -/

/-- The reconnect-relevant configuration of the hook. -/
structure WSConfig where
  enableReconnect : Bool
  maxReconnectAttempts : Nat
  reconnectInterval : Nat
deriving DecidableEq, Repr

/-- The reconnect-relevant mutable state of the hook: connection flags, the
single reconnect timer slot (with its delay when armed), the attempt
counter, and the observable error field. -/
structure WSConnState where
  connected : Bool
  connecting : Bool
  reconnectTimer : Option Nat
  reconnectAttempts : Nat
  wsError : Option String
deriving DecidableEq, Repr

/-- State of a freshly created hook instance. -/
def wsInitial : WSConnState :=
  { connected := false, connecting := false, reconnectTimer := none,
    reconnectAttempts := 0, wsError := none }

/-- The events that drive the connection state: the socket open, close and
error callbacks, the reconnect timer firing (which calls connect), and a
user-initiated disconnect call. -/
inductive WSEvent
  | openEvt
  | closeEvt (wasClean : Bool)
  | errorEvt
  | timerFire
  | disconnectCall
deriving DecidableEq, Repr

/-- One step of the connection state machine, faithful to the handlers in
the source: onopen resets the attempt counter and clears the error; onclose
first clears any pending reconnect timer, then schedules exactly one
reconnect (incrementing the counter) when reconnection is enabled, the
counter is below the maximum and the closure was not clean, and otherwise
surfaces the terminal error once the counter has reached the maximum;
onerror sets the observable error; a firing timer consumes its slot and
starts connecting; disconnect cancels the timer and resets the counter. -/
def wsStep (cfg : WSConfig) (s : WSConnState) : WSEvent → WSConnState
  | .openEvt =>
    { s with connected := true, connecting := false, wsError := none, reconnectAttempts := 0 }
  | .closeEvt wasClean =>
    let s1 := { s with connected := false, connecting := false, reconnectTimer := none }
    if cfg.enableReconnect = true ∧ s.reconnectAttempts < cfg.maxReconnectAttempts ∧
        wasClean = false then
      { s1 with reconnectAttempts := s.reconnectAttempts + 1,
                reconnectTimer := some cfg.reconnectInterval }
    else if cfg.maxReconnectAttempts ≤ s.reconnectAttempts then
      { s1 with wsError := some "WebSocket reconnect failed, reached max attempts" }
    else s1
  | .errorEvt =>
    { s with wsError := some "WebSocket connection error", connecting := false }
  | .timerFire =>
    if s.reconnectTimer.isSome then { s with reconnectTimer := none, connecting := true }
    else s
  | .disconnectCall =>
    { s with reconnectTimer := none, connected := false, connecting := false,
             reconnectAttempts := 0 }

/-- The states a hook instance can actually be in: everything reachable
from the initial state under the event step function. -/
inductive WSReachable (cfg : WSConfig) : WSConnState → Prop
  | init : WSReachable cfg wsInitial
  | step (s : WSConnState) (e : WSEvent) :
      WSReachable cfg s → WSReachable cfg (wsStep cfg s e)

/-! ## Session hook: roles, logout, auto-refresh -/

/-- The slice of a keycloak instance that role resolution reads: the
authenticated flag, the realm roles and the client roles of the configured
client. -/
structure KcInstance where
  kcAuthenticated : Bool
  realmRoles : List String
  clientRoles : List String
deriving DecidableEq, Repr

/-- getUserRoles: empty unless the instance exists and is authenticated,
otherwise realm roles followed by client roles. -/
def getUserRoles : Option KcInstance → List String
  | none => []
  | some k => if k.kcAuthenticated then k.realmRoles ++ k.clientRoles else []

/-- hasSuperRole: whether the resolved role set contains the configured
super role; false when unauthenticated. -/
def hasSuperRole (superRole : String) (kc : Option KcInstance) : Bool :=
  match kc with
  | none => false
  | some k =>
    if k.kcAuthenticated then (getUserRoles (some k)).contains superRole else false

/-- hasRole: false when the hook is not authenticated or the required role
is missing (the empty string models a falsy argument); true for any role
once the user holds the super role; otherwise membership in the resolved
role set. -/
def hasRole (superRole : String) (authenticated : Bool) (kc : Option KcInstance)
    (requiredRole : String) : Bool :=
  if !authenticated || requiredRole == "" then false
  else if hasSuperRole superRole kc then true
  else (getUserRoles kc).contains requiredRole

/-- Combined state of one hook instance together with the module-level
globals it manipulates: the hook-local keycloak reference and authenticated
flag, the single auto-refresh timer slot (updateTokenTimeoutRef, holding
its delay when armed), the token fields, the loading and error fields, and
the global singleton and lifecycle state. -/
structure HookState where
  keycloak : Option KcInstance
  authenticated : Bool
  refreshTimer : Option Nat
  token : Option String
  refreshTokenStr : Option String
  loading : Bool
  hookError : Option String
  globalSingleton : Option KcInstance
  globalState : InitState
deriving DecidableEq, Repr

/-- resetGlobalState as seen from one hook instance: the globals are
cleared, and the RESET notification it broadcasts makes the subscriber of
this hook null the keycloak reference, drop authentication, stop loading
and clear the error and token fields. -/
def resetGlobalHook (s : HookState) : HookState :=
  { s with globalSingleton := none, globalState := .idle,
           keycloak := none, authenticated := false, loading := false,
           hookError := none, token := none, refreshTokenStr := none }

/-- The fixed auto-refresh period hardcoded in setupTokenRefresh:
five minutes in milliseconds. -/
def refreshIntervalMs : Nat := 5 * 60 * 1000

/-- Result of one awaited keycloak updateToken(30) call inside the
auto-refresh loop: the token was refreshed (with the new token pair), the
token was still valid so nothing was refreshed, or the call threw. -/
inductive UpdateOutcome
  | refreshedTok (newToken newRefresh : String)
  | notRefreshed
  | failed
deriving DecidableEq, Repr

/-- One run of the updateToken closure of setupTokenRefresh after its timer
fired (so the slot is consumed on entry), for a mounted component: on a
refresh the token fields are replaced and the timer is re-armed with the
fixed five-minute delay; when no refresh was needed the timer is still
re-armed; when updateToken throws, the catch block records the
session-expired error and never re-arms the timer. -/
def updateTokenTick (s : HookState) (o : UpdateOutcome) : HookState :=
  let s0 := { s with refreshTimer := none }
  match o with
  | .refreshedTok t r =>
    { s0 with token := some t, refreshTokenStr := some r,
              refreshTimer := some refreshIntervalMs }
  | .notRefreshed => { s0 with refreshTimer := some refreshIntervalMs }
  | .failed =>
    { s0 with hookError := some "Authentication session expired. Please login again." }

/-- logout, covering both the successful path and the path where the
external keycloak sign-out call throws: a missing keycloak reference makes
the call a no-op; otherwise the refresh timer is cleared and the local and
global state are reset before the external call, and the catch block (after
recording the failure) resets the global state again, so cleanup survives a
failing external sign-out. -/
def logoutRun (s : HookState) (externalSignOutFails : Bool) : HookState :=
  match s.keycloak with
  | none => s
  | some _ =>
    let localCleared := { s with refreshTimer := none, authenticated := false,
                                 token := none, refreshTokenStr := none, loading := true }
    let afterReset := resetGlobalHook localCleared
    if externalSignOutFails then
      resetGlobalHook { afterReset with hookError := some "Logout failed", loading := false }
    else afterReset

/-! ## Session hook: subscriber notification -/

/-- A registered state subscriber: an identifier together with a flag
saying whether its callback throws when invoked. -/
abbrev Subscriber := Nat × Bool

/-- notifyStateChange: stateSubscribers.forEach with the subscriber call
wrapped in try/catch, so a throwing callback is logged and the iteration
continues; the returned list is the synchronous invocation order. -/
def notifyStateChange : List Subscriber → List Nat
  | [] => []
  | sub :: rest => sub.1 :: notifyStateChange rest

/-! ## Gateway interceptor -/

/-- Substring test on character lists, the semantics of the JavaScript
String.prototype.includes. -/
def listContainsSub : List Char → List Char → Bool
  | needle, [] => needle.isPrefixOf []
  | needle, c :: rest => needle.isPrefixOf (c :: rest) || listContainsSub needle rest

/-- hay.includes(needle) on strings. -/
def strIncludes (hay needle : String) : Bool :=
  listContainsSub needle.toList hay.toList

/-- The isPasswordError test of the response interceptor, verbatim: the
body message contains one of the two literal phrases, or its lower-cased
form (lower-casing applied per character) contains the third. -/
def isPasswordError (msg : String) : Bool :=
  strIncludes msg "Current password is incorrect" ||
  strIncludes msg "password is incorrect" ||
  listContainsSub "incorrect password".toList (msg.toList.map Char.toLower)

/-- The per-request flags the interceptor reads: the credential-exempt
noToken flag and the retry marker set on a request that has already been
replayed once. -/
structure ApiRequest where
  noToken : Bool
  retryFlag : Bool
deriving DecidableEq, Repr

/-- The slice of an axios rejection the interceptor reads: the optional
HTTP status and the body error message. -/
structure ApiRespError where
  httpStatus : Option Nat
  bodyMessage : String
deriving DecidableEq, Repr

/-- Module-level interceptor state: the shared isRefreshingToken flag, plus
counters for how many refresh calls and logout calls have been issued. -/
structure GatewayState where
  isRefreshingToken : Bool
  refreshCalls : Nat
  logoutCalls : Nat
deriving DecidableEq, Repr

/-- Where the synchronous prefix of the response-error interceptor leaves a
request: suspended at the await of updateTokenFunction(30); rejected after
being tagged with the incorrect category; rejected after calling logout; or
rejected with no 401 handling at all (which is also the path every 401
takes while the shared refresh flag is set). -/
inductive InterceptStage
  | awaitRefresh
  | rejectTaggedIncorrect
  | rejectAfterLogout
  | rejectPlain
deriving DecidableEq, Repr

/-- Synchronous prefix of the response-error interceptor, faithful to the
source order: the whole 401 block is guarded by status 401, not
credential-exempt and no refresh in flight; inside it, an
incorrect-password message is tagged and falls through to handleApiError;
otherwise a first 401 with a refresh capability marks the request as
retried, raises the shared flag, and suspends on the refresh call; failing
that, logout is invoked when available. -/
def respInterceptPhase1 (g : GatewayState) (hasUpdateTokenFn hasLogoutFn : Bool)
    (req : ApiRequest) (e : ApiRespError) : GatewayState × ApiRequest × InterceptStage :=
  if e.httpStatus == some 401 && !req.noToken && !g.isRefreshingToken then
    if isPasswordError e.bodyMessage then (g, req, .rejectTaggedIncorrect)
    else if !req.retryFlag && hasUpdateTokenFn then
      ({ g with isRefreshingToken := true, refreshCalls := g.refreshCalls + 1 },
       { req with retryFlag := true }, .awaitRefresh)
    else if hasLogoutFn then
      ({ g with logoutCalls := g.logoutCalls + 1 }, req, .rejectAfterLogout)
    else (g, req, .rejectPlain)
  else (g, req, .rejectPlain)

/-- What the awaited updateTokenFunction(30) call came back with: a refresh
with a new token available, a refresh after which getTokenFunction returned
nothing, no refresh needed, or a thrown error. -/
inductive RefreshOutcome
  | refreshedWithToken (newToken : String)
  | refreshedNoToken
  | notRefreshed
  | threw
deriving DecidableEq, Repr

/-- Final fate of the request that owned the in-flight refresh. -/
inductive FinalOutcome
  | resolvedAfterRetry (authHeader : String)
  | rejectedNoRetry (loggedOut : Bool)
deriving DecidableEq, Repr

/-- Resumption of the interceptor after the awaited refresh: a successful
refresh with a token replays the original request once with the new bearer
header and resolves with its result; every other outcome invokes logout
when available and rejects without a retry; the finally block lowers the
shared flag on all paths. -/
def respInterceptPhase2 (g : GatewayState) (hasLogoutFn : Bool) (o : RefreshOutcome) :
    GatewayState × FinalOutcome :=
  match o with
  | .refreshedWithToken t =>
    ({ g with isRefreshingToken := false }, .resolvedAfterRetry ("Bearer " ++ t))
  | .refreshedNoToken =>
    let g1 := if hasLogoutFn then { g with logoutCalls := g.logoutCalls + 1 } else g
    ({ g1 with isRefreshingToken := false }, .rejectedNoRetry hasLogoutFn)
  | .notRefreshed =>
    let g1 := if hasLogoutFn then { g with logoutCalls := g.logoutCalls + 1 } else g
    ({ g1 with isRefreshingToken := false }, .rejectedNoRetry hasLogoutFn)
  | .threw =>
    let g1 := if hasLogoutFn then { g with logoutCalls := g.logoutCalls + 1 } else g
    ({ g1 with isRefreshingToken := false }, .rejectedNoRetry hasLogoutFn)

/-- Joint outcome of the two-requests-in-one-tick scenario. -/
structure TwoReqResult where
  finalGateway : GatewayState
  firstStage : InterceptStage
  secondStage : InterceptStage
  firstOutcome : FinalOutcome
deriving DecidableEq, Repr

/-- The scenario of the spec: two non-exempt, not-yet-retried requests each
receive a 401 in the same tick (bodies m1 and m2), with both the refresh
and the logout capability configured.  The event loop runs the first 401
handler up to its refresh await, then the second 401 handler in full, then
resumes the first when the refresh resolves successfully with newTok. -/
def runTwo401sSameTick (m1 m2 newTok : String) : TwoReqResult :=
  let g0 : GatewayState := { isRefreshingToken := false, refreshCalls := 0, logoutCalls := 0 }
  let r0 : ApiRequest := { noToken := false, retryFlag := false }
  let p1 := respInterceptPhase1 g0 true true r0 { httpStatus := some 401, bodyMessage := m1 }
  let p2 := respInterceptPhase1 p1.1 true true r0 { httpStatus := some 401, bodyMessage := m2 }
  let p3 := respInterceptPhase2 p2.1 true (.refreshedWithToken newTok)
  { finalGateway := p3.1, firstStage := p1.2.2, secondStage := p2.2.2, firstOutcome := p3.2 }

/-- Whether every caller result in the list resolves to the keycloak
instance inst. -/
def allSameSession (inst : Nat) (rs : List InitCallRes) : Bool :=
  rs.all (fun r => sessionOfRes inst r == inst)

/-- The status key handleApiError switches on. -/
inductive StatusKey
  | httpKey (n : Nat)
  | incorrectKey
  | unknownKey
deriving DecidableEq, Repr

/-- The status resolution at the top of handleApiError: a customStatus set
on the error wins (the interceptor only ever sets the incorrect category),
otherwise the HTTP status of the response, otherwise unknown. -/
def resolveStatusKey (customIncorrect : Bool) (respStatus : Option Nat) : StatusKey :=
  if customIncorrect then .incorrectKey
  else
    match respStatus with
    | some n => .httpKey n
    | none => .unknownKey

/-- Whether a phase-1 stage left the incorrect tag on the error. -/
def taggedIncorrect : InterceptStage → Bool
  | .rejectTaggedIncorrect => true
  | _ => false

/-- getCustomMessage: the per-call messageMap entry for the resolved status
key wins over the default message for the branch. -/
def getCustomMessage (messageMap : List (StatusKey × String)) (k : StatusKey)
    (defaultMsg : String) : String :=
  match messageMap.find? (fun e => e.1 == k) with
  | some e => e.2
  | none => defaultMsg

/-! ## Helper lemmas -/

/-- Once the lifecycle state is initializing, every further caller only
reads the in-flight promise: it changes no global state and starts no
handshake. -/
theorem initCallersLoop_initializing (m : Nat) (g : KcGlobal) (h : g.state = .initializing) :
    initCallersLoop m g = (g, List.replicate m InitCallRes.inflightPromise) := by
  induction m with
  | zero => simp [initCallersLoop]
  | succ n ih =>
    have hp : initKeycloakPrefix g = (g, .inflightPromise) := by
      simp [initKeycloakPrefix, h]
    simp [initCallersLoop, hp, ih, List.replicate]

/-- Every element of a replicated in-flight-promise list resolves to the
resolved instance. -/
theorem allSameSession_replicate (inst m : Nat) :
    allSameSession inst (List.replicate m InitCallRes.inflightPromise) = true := by
  induction m with
  | zero => rfl
  | succ n ih => simp [allSameSession, List.replicate, sessionOfRes]

/-- The onopen while loop transmits exactly the queued messages, appended
in queue order to the transport log. -/
theorem flushQueue_eq_append (q log : List String) : flushQueue log q = log ++ q := by
  induction q generalizing log with
  | nil => simp [flushQueue]
  | cons m rest ih => simp [flushQueue, ih]

/-- On an open socket, a sequence of sendMessage calls appends the messages
to the transport log in call order and leaves the queue untouched. -/
theorem applySends_open (post : List String) (q log : List String) :
    applySends { socketOpen := true, messageQueue := q, transportLog := log } post =
      { socketOpen := true, messageQueue := q, transportLog := log ++ post } := by
  induction post generalizing log with
  | nil => simp [applySends]
  | cons p ps ih =>
    have h1 : sendMessage { socketOpen := true, messageQueue := q, transportLog := log } p =
        { socketOpen := true, messageQueue := q, transportLog := log ++ [p] } := by
      simp [sendMessage]
    simp only [applySends, List.foldl_cons, h1]
    simpa using ih (log ++ [p])

/-- An unprotected forEach over handlers none of which throw invokes all of
them in list order. -/
theorem forEachInvoke_no_throw (hs : List WSHandler) (h : ∀ x ∈ hs, x.2 = false) :
    forEachInvoke hs = hs.map Prod.fst := by
  induction hs with
  | nil => rfl
  | cons a rest ih =>
    obtain ⟨i, thr⟩ := a
    have ha : thr = false := h (i, thr) (List.mem_cons_self _ _)
    subst ha
    simp only [forEachInvoke, List.map_cons]
    rw [if_neg (show ¬((false : Bool) = true) by decide)]
    exact congrArg (i :: ·) (ih fun x hx => h x (List.mem_cons_of_mem _ hx))

/-- An unprotected forEach stops at the first throwing handler: everything
before it runs in order, the thrower runs, nothing after it runs. -/
theorem forEachInvoke_until_throw (pre : List WSHandler) (i : Nat) (post : List WSHandler)
    (hpre : ∀ x ∈ pre, x.2 = false) :
    forEachInvoke (pre ++ (i, true) :: post) = pre.map Prod.fst ++ [i] := by
  induction pre with
  | nil => simp [forEachInvoke]
  | cons a rest ih =>
    obtain ⟨j, thr⟩ := a
    have ha : thr = false := hpre (j, thr) (List.mem_cons_self _ _)
    subst ha
    simp only [List.cons_append, forEachInvoke, List.map_cons]
    rw [if_neg (show ¬((false : Bool) = true) by decide)]
    exact congrArg (j :: ·) (ih fun x hx => hpre x (List.mem_cons_of_mem _ hx))

/-- Looking up a single-entry registry under its own key returns its
handler list. -/
theorem lookupListeners_single (t : String) (hs : List WSHandler) :
    lookupListeners [(t, hs)] t = hs := by
  simp [lookupListeners, List.find?]

/-- Invariant of the reconnect state machine: the attempt counter never
exceeds the configured maximum in any reachable state. -/
theorem wsReachable_attempts_le (cfg : WSConfig) (s : WSConnState) (h : WSReachable cfg s) :
    s.reconnectAttempts ≤ cfg.maxReconnectAttempts := by
  induction h with
  | init => simp [wsInitial]
  | step s e hs ih =>
    cases e with
    | openEvt => simp [wsStep]
    | closeEvt b =>
      simp only [wsStep]
      split_ifs with h1 h2
      · exact h1.2.1
      · simpa using ih
      · simpa using ih
    | errorEvt => simpa [wsStep] using ih
    | timerFire =>
      simp only [wsStep]
      split_ifs <;> simpa using ih
    | disconnectCall => simp [wsStep]

/-! ## Claim theorems -/

/-- C1: for every sequence of initialize calls issued before the first one
resolves, exactly one identity-provider handshake is started, the resolved
instance becomes the unique stored singleton, and every caller resolves to
that same session (the same keycloak instance). -/
theorem keycloak_init_single_flight (n : Nat) (h : 1 ≤ n) :
    (runConcurrentInit n).1.handshakeCount = 1 ∧
    (resolveInitSuccess (runConcurrentInit n).1 0).keycloakSingleton = some 0 ∧
    allSameSession 0 (runConcurrentInit n).2 = true := by
  obtain ⟨m, rfl⟩ : ∃ m, n = m + 1 := ⟨n - 1, by omega⟩
  have h1 : initKeycloakPrefix initialKcGlobal =
      ({ keycloakSingleton := none, initPromiseLive := true, state := .initializing,
         handshakeCount := 1 }, .creatorAwait) := rfl
  have h2 := initCallersLoop_initializing m
      { keycloakSingleton := none, initPromiseLive := true, state := .initializing,
        handshakeCount := 1 } rfl
  refine ⟨?_, ?_, ?_⟩ <;>
    simp [runConcurrentInit, initCallersLoop, h1, h2, resolveInitSuccess,
      allSameSession, sessionOfRes, allSameSession_replicate]

/-- C1 witness: three initialize calls in one tick perform one handshake
and all resolve to the session with instance 0. -/
theorem keycloak_init_single_flight_witness :
    (runConcurrentInit 3).1.handshakeCount = 1 ∧
    (resolveInitSuccess (runConcurrentInit 3).1 0).keycloakSingleton = some 0 ∧
    allSameSession 0 (runConcurrentInit 3).2 = true :=
  keycloak_init_single_flight 3 (by decide)

/-- C3: a message sent while the socket is not open is appended to the end
of the outbound queue; on the next successful open the queue is emptied and
every queued message reaches the transport exactly once, in enqueue order,
ahead of the optional in-band auth message and of every message sent after
the open. -/
theorem queued_messages_flushed_in_order (log q post : List String) (auth : Option String)
    (m : String) :
    (sendMessage { socketOpen := false, messageQueue := q, transportLog := log } m).messageQueue
      = q ++ [m] ∧
    (onSocketOpen { socketOpen := false, messageQueue := q, transportLog := log }
      auth).messageQueue = [] ∧
    (applySends (onSocketOpen { socketOpen := false, messageQueue := q, transportLog := log }
      auth) post).transportLog = log ++ q ++ auth.toList ++ post := by
  have h1 : onSocketOpen { socketOpen := false, messageQueue := q, transportLog := log } auth =
      { socketOpen := true, messageQueue := [],
        transportLog := log ++ q ++ auth.toList } := by
    simp [onSocketOpen, flushQueue_eq_append]
  refine ⟨by simp [sendMessage], by rw [h1], ?_⟩
  rw [h1, applySends_open]

/-- C4 counterexample: the claim says a ping event is not dispatched to
handlers registered under the ping type, but with handler 7 registered
under ping, an inbound ping both receives the automatic pong reply and is
forwarded to handler 7 (there is no early return after the reply). -/
theorem ping_forwarded_to_handlers_counterexample :
    (onMessageDispatch [("ping", [(7, false)])] "ping").pongSent = true ∧
    (onMessageDispatch [("ping", [(7, false)])] "ping").invoked = [7] ∧
    (onMessageDispatch [("ping", [(7, false)])] "ping").invoked ≠ [] := by decide

/-- C4 amended: an inbound ping receives the automatic pong reply, and is
then also dispatched, like any other event type, to every handler
registered under the ping type in registration order. -/
theorem ping_reply_and_dispatch_amended (hs : List WSHandler) (h : ∀ x ∈ hs, x.2 = false) :
    (onMessageDispatch [("ping", hs)] "ping").pongSent = true ∧
    (onMessageDispatch [("ping", hs)] "ping").invoked = hs.map Prod.fst := by
  refine ⟨rfl, ?_⟩
  rcases hs with _ | ⟨a, rest⟩
  · simp [onMessageDispatch, lookupListeners_single]
  · simp [onMessageDispatch, lookupListeners_single, forEachInvoke_no_throw _ h]

/-- C4 amended witness: two non-throwing handlers under ping both run on an
inbound ping, after the automatic reply. -/
theorem ping_reply_and_dispatch_amended_witness :
    (onMessageDispatch [("ping", [(1, false), (2, false)])] "ping").pongSent = true ∧
    (onMessageDispatch [("ping", [(1, false), (2, false)])] "ping").invoked =
      ([(1, false), (2, false)] : List WSHandler).map Prod.fst :=
  ping_reply_and_dispatch_amended [(1, false), (2, false)] (by decide)

/-- C5 counterexample: the claim says an exception in an earlier handler
must not prevent later handlers from running, but with handlers 1 (throws)
and 2 registered under one type, only handler 1 is invoked: the unprotected
forEach lets the exception abort the dispatch before handler 2. -/
theorem handler_throw_stops_dispatch_counterexample :
    (onMessageDispatch [("alert", [(1, true), (2, false)])] "alert").invoked = [1] ∧
    ¬ 2 ∈ (onMessageDispatch [("alert", [(1, true), (2, false)])] "alert").invoked := by decide

/-- C5 amended: handlers are invoked in registration order, and when no
handler throws all of them run; but an exception thrown by a handler aborts
the dispatch, so the throwing handler is the last one invoked and the
handlers after it do not run. -/
theorem dispatch_order_until_throw_amended (pre : List WSHandler) (i : Nat)
    (post : List WSHandler) (hpre : ∀ x ∈ pre, x.2 = false) :
    (onMessageDispatch [("evt", pre ++ (i, true) :: post)] "evt").invoked =
      pre.map Prod.fst ++ [i] ∧
    (onMessageDispatch [("evt", pre)] "evt").invoked = pre.map Prod.fst := by
  constructor
  · have hne : (pre ++ (i, true) :: post).length > 0 := by simp
    simp [onMessageDispatch, lookupListeners_single, hne,
      forEachInvoke_until_throw pre i post hpre]
  · rcases pre with _ | ⟨a, rest⟩
    · simp [onMessageDispatch, lookupListeners_single]
    · simp [onMessageDispatch, lookupListeners_single, forEachInvoke_no_throw _ hpre]

/-- C5 amended witness: with handlers 1 (safe), 2 (throws), 3 (safe) under
one type, dispatch invokes 1 then 2 and stops. -/
theorem dispatch_order_until_throw_amended_witness :
    (onMessageDispatch [("evt", [(1, false)] ++ (2, true) :: [(3, false)])] "evt").invoked =
      ([(1, false)] : List WSHandler).map Prod.fst ++ [2] ∧
    (onMessageDispatch [("evt", [(1, false)])] "evt").invoked =
      ([(1, false)] : List WSHandler).map Prod.fst :=
  dispatch_order_until_throw_amended [(1, false)] 2 [(3, false)] (by decide)

/-- C6: in every reachable connection state the reconnect-attempt counter
never exceeds the configured maximum; a successful open resets the counter
to zero; a clean close never leaves a reconnect timer armed; and from a
state whose counter has reached the maximum, an unclean close schedules no
further reconnect and surfaces the terminal reconnect-exhaustion error. -/
theorem reconnect_attempts_bounded (cfg : WSConfig) (s : WSConnState) (h : WSReachable cfg s) :
    s.reconnectAttempts ≤ cfg.maxReconnectAttempts ∧
    (wsStep cfg s .openEvt).reconnectAttempts = 0 ∧
    (wsStep cfg s (.closeEvt true)).reconnectTimer = none ∧
    (wsStep cfg { s with reconnectAttempts := cfg.maxReconnectAttempts }
      (.closeEvt false)).reconnectTimer = none ∧
    (wsStep cfg { s with reconnectAttempts := cfg.maxReconnectAttempts }
      (.closeEvt false)).wsError = some "WebSocket reconnect failed, reached max attempts" := by
  refine ⟨wsReachable_attempts_le cfg s h, by simp [wsStep], ?_, ?_, ?_⟩ <;>
    ( simp only [wsStep]
      split_ifs <;> simp_all )

/-- C6 witness: the initial state of a hook configured with reconnection
enabled and a maximum of three attempts satisfies all the bounds. -/
theorem reconnect_attempts_bounded_witness :
    wsInitial.reconnectAttempts ≤ (WSConfig.mk true 3 100).maxReconnectAttempts ∧
    (wsStep (WSConfig.mk true 3 100) wsInitial .openEvt).reconnectAttempts = 0 ∧
    (wsStep (WSConfig.mk true 3 100) wsInitial (.closeEvt true)).reconnectTimer = none ∧
    (wsStep (WSConfig.mk true 3 100)
      { wsInitial with reconnectAttempts := (WSConfig.mk true 3 100).maxReconnectAttempts }
      (.closeEvt false)).reconnectTimer = none ∧
    (wsStep (WSConfig.mk true 3 100)
      { wsInitial with reconnectAttempts := (WSConfig.mk true 3 100).maxReconnectAttempts }
      (.closeEvt false)).wsError = some "WebSocket reconnect failed, reached max attempts" :=
  reconnect_attempts_bounded (WSConfig.mk true 3 100) wsInitial WSReachable.init

/-- A concrete initialized, authenticated hook state with the auto-refresh
timer armed, used to instantiate the session-manager theorems. -/
def sampleHookState : HookState :=
  { keycloak := some { kcAuthenticated := true, realmRoles := ["user"], clientRoles := [] },
    authenticated := true, refreshTimer := some refreshIntervalMs,
    token := some "tok", refreshTokenStr := some "ref", loading := false, hookError := none,
    globalSingleton := some { kcAuthenticated := true, realmRoles := ["user"], clientRoles := [] },
    globalState := .initialized }

/-- C7 counterexample: the claim says the scheduler re-arms itself after
every attempt, failed ones included, but when the awaited updateToken call
throws, the catch block records the session-expired error and the timer
slot stays empty: no further attempt is ever scheduled. -/
theorem refresh_failure_no_rearm_counterexample :
    (updateTokenTick sampleHookState .failed).refreshTimer = none ∧
    (updateTokenTick sampleHookState .failed).hookError =
      some "Authentication session expired. Please login again." :=
  ⟨rfl, rfl⟩

/-- C7 amended: the scheduler re-arms the single timer slot with the fixed
five-minute interval after every attempt that does not throw, whether or
not a refresh actually occurred; an attempt whose refresh call throws does
not re-arm it; and logout cancels the armed timer. -/
theorem auto_refresh_rearm_amended (s : HookState) (k : KcInstance)
    (hk : s.keycloak = some k) (t r : String) (fails : Bool) :
    (updateTokenTick s (.refreshedTok t r)).refreshTimer = some refreshIntervalMs ∧
    (updateTokenTick s .notRefreshed).refreshTimer = some refreshIntervalMs ∧
    (updateTokenTick s .failed).refreshTimer = none ∧
    (logoutRun s fails).refreshTimer = none := by
  refine ⟨rfl, rfl, rfl, ?_⟩
  simp only [logoutRun, hk]
  split_ifs <;> rfl

/-- C7 amended witness: the sample state re-arms on both non-throwing
outcomes, stops on a throwing one, and logout cancels the timer. -/
theorem auto_refresh_rearm_amended_witness :
    (updateTokenTick sampleHookState (.refreshedTok "t2" "r2")).refreshTimer =
      some refreshIntervalMs ∧
    (updateTokenTick sampleHookState .notRefreshed).refreshTimer = some refreshIntervalMs ∧
    (updateTokenTick sampleHookState .failed).refreshTimer = none ∧
    (logoutRun sampleHookState true).refreshTimer = none :=
  auto_refresh_rearm_amended sampleHookState
    { kcAuthenticated := true, realmRoles := ["user"], clientRoles := [] } rfl "t2" "r2" true

/-- C8: logout cancels the armed refresh timer and clears the session and
the global state, whether or not the external identity-provider sign-out
call fails, and afterwards hasRole returns false for every role. -/
theorem logout_cleanup_clears_session (s : HookState) (k : KcInstance)
    (hk : s.keycloak = some k) (fails : Bool) (superRole requiredRole : String) :
    (logoutRun s fails).refreshTimer = none ∧
    (logoutRun s fails).globalSingleton = none ∧
    (logoutRun s fails).globalState = .idle ∧
    (logoutRun s fails).keycloak = none ∧
    (logoutRun s fails).authenticated = false ∧
    (logoutRun s fails).token = none ∧
    hasRole superRole (logoutRun s fails).authenticated (logoutRun s fails).keycloak
      requiredRole = false := by
  have hc : logoutRun s fails = resetGlobalHook
      { s with refreshTimer := none, authenticated := false,
               token := none, refreshTokenStr := none, loading := true } ∨
      logoutRun s fails = resetGlobalHook
        { resetGlobalHook
            { s with refreshTimer := none, authenticated := false,
                     token := none, refreshTokenStr := none, loading := true }
          with hookError := some "Logout failed", loading := false } := by
    simp only [logoutRun, hk]
    split_ifs with hf
    · exact Or.inr rfl
    · exact Or.inl rfl
  rcases hc with hc | hc <;> rw [hc] <;>
    exact ⟨rfl, rfl, rfl, rfl, rfl, rfl, by simp [hasRole, resetGlobalHook]⟩

/-- C8 witness: logging out of the sample state while the external
sign-out call fails still clears everything, and hasRole admin is false. -/
theorem logout_cleanup_clears_session_witness :
    (logoutRun sampleHookState true).refreshTimer = none ∧
    (logoutRun sampleHookState true).globalSingleton = none ∧
    (logoutRun sampleHookState true).globalState = .idle ∧
    (logoutRun sampleHookState true).keycloak = none ∧
    (logoutRun sampleHookState true).authenticated = false ∧
    (logoutRun sampleHookState true).token = none ∧
    hasRole "web-admin" (logoutRun sampleHookState true).authenticated
      (logoutRun sampleHookState true).keycloak "user" = false :=
  logout_cleanup_clears_session sampleHookState
    { kcAuthenticated := true, realmRoles := ["user"], clientRoles := [] } rfl true
    "web-admin" "user"

/-- C9: a state-change notification invokes the callback of every
registered subscriber, in registration order, within the notifying call
itself; because every callback is wrapped in its own try/catch, a throwing
subscriber never prevents the remaining subscribers from being notified. -/
theorem notify_reaches_all_subscribers (subs : List Subscriber) :
    notifyStateChange subs = subs.map Prod.fst := by
  induction subs with
  | nil => rfl
  | cons a rest ih => simp [notifyStateChange, ih]

/-- C2 counterexample: the claim says both 401 requests await the single
in-flight refresh and are each retried once, but in the concrete
same-tick run the second request bypasses the whole 401 block (the shared
isRefreshingToken flag is already set), so it is rejected immediately and
never retried; only one refresh call is made and only the first request is
replayed. -/
theorem two_401_same_tick_counterexample :
    (runTwo401sSameTick "Unauthorized" "Unauthorized" "newTok").secondStage =
      InterceptStage.rejectPlain ∧
    (runTwo401sSameTick "Unauthorized" "Unauthorized" "newTok").finalGateway.refreshCalls = 1 :=
  ⟨rfl, rfl⟩

/-- C2 amended: two non-exempt, not-yet-retried requests that each receive
a 401 (with non-password error bodies) in the same tick trigger exactly one
refresh call; the request that initiated the refresh is retried exactly
once with the refreshed credential and resolves, while the other request is
rejected without awaiting the refresh, without a retry and without a
logout; the shared flag is lowered afterwards. -/
theorem two_401_single_refresh_amended (m1 m2 newTok : String)
    (h1 : isPasswordError m1 = false) (_h2 : isPasswordError m2 = false) :
    (runTwo401sSameTick m1 m2 newTok).finalGateway.refreshCalls = 1 ∧
    (runTwo401sSameTick m1 m2 newTok).firstStage = InterceptStage.awaitRefresh ∧
    (runTwo401sSameTick m1 m2 newTok).firstOutcome =
      FinalOutcome.resolvedAfterRetry ("Bearer " ++ newTok) ∧
    (runTwo401sSameTick m1 m2 newTok).secondStage = InterceptStage.rejectPlain ∧
    (runTwo401sSameTick m1 m2 newTok).finalGateway.logoutCalls = 0 ∧
    (runTwo401sSameTick m1 m2 newTok).finalGateway.isRefreshingToken = false := by
  refine ⟨?_, ?_, ?_, ?_, ?_, ?_⟩ <;>
    simp [runTwo401sSameTick, respInterceptPhase1, respInterceptPhase2, h1]

/-- C2 amended witness: the concrete same-tick run with two generic 401
bodies performs one refresh, retries the first request and rejects the
second. -/
theorem two_401_single_refresh_amended_witness :
    (runTwo401sSameTick "Unauthorized" "Unauthorized" "tok2").finalGateway.refreshCalls = 1 ∧
    (runTwo401sSameTick "Unauthorized" "Unauthorized" "tok2").firstStage =
      InterceptStage.awaitRefresh ∧
    (runTwo401sSameTick "Unauthorized" "Unauthorized" "tok2").firstOutcome =
      FinalOutcome.resolvedAfterRetry ("Bearer " ++ "tok2") ∧
    (runTwo401sSameTick "Unauthorized" "Unauthorized" "tok2").secondStage =
      InterceptStage.rejectPlain ∧
    (runTwo401sSameTick "Unauthorized" "Unauthorized" "tok2").finalGateway.logoutCalls = 0 ∧
    (runTwo401sSameTick "Unauthorized" "Unauthorized" "tok2").finalGateway.isRefreshingToken =
      false :=
  two_401_single_refresh_amended "Unauthorized" "Unauthorized" "tok2" rfl rfl

/-- C10 counterexample: the claim covers every 401 whose body indicates an
incorrect password, but when such a 401 arrives while a refresh is already
in flight (here: in the same tick as another 401 that started one), the
interceptor skips the whole 401 block, so the error is not tagged with the
incorrect category and is surfaced through the plain 401 path instead. -/
theorem password_error_during_refresh_counterexample :
    (runTwo401sSameTick "Unauthorized" "Current password is incorrect" "t").secondStage =
      InterceptStage.rejectPlain ∧
    taggedIncorrect
      (runTwo401sSameTick "Unauthorized" "Current password is incorrect" "t").secondStage =
      false ∧
    resolveStatusKey false (some 401) = StatusKey.httpKey 401 :=
  ⟨rfl, rfl, rfl⟩

/-- C10 amended: a 401 whose body indicates an incorrect password, received
on a request that is not credential-exempt while no refresh is in flight,
triggers neither a refresh nor a logout; the error is tagged with the
incorrect category, and handleApiError then resolves that category and
surfaces the message configured for it. -/
theorem password_error_tagged_incorrect_amended (g : GatewayState) (msg : String)
    (hg : g.isRefreshingToken = false) (hp : isPasswordError msg = true)
    (hasU hasL : Bool) (incorrectMsg fallbackMsg : String) :
    (respInterceptPhase1 g hasU hasL { noToken := false, retryFlag := false }
      { httpStatus := some 401, bodyMessage := msg }).2.2 =
      InterceptStage.rejectTaggedIncorrect ∧
    (respInterceptPhase1 g hasU hasL { noToken := false, retryFlag := false }
      { httpStatus := some 401, bodyMessage := msg }).1.refreshCalls = g.refreshCalls ∧
    (respInterceptPhase1 g hasU hasL { noToken := false, retryFlag := false }
      { httpStatus := some 401, bodyMessage := msg }).1.logoutCalls = g.logoutCalls ∧
    (respInterceptPhase1 g hasU hasL { noToken := false, retryFlag := false }
      { httpStatus := some 401, bodyMessage := msg }).1.isRefreshingToken = false ∧
    resolveStatusKey
      (taggedIncorrect (respInterceptPhase1 g hasU hasL { noToken := false, retryFlag := false }
        { httpStatus := some 401, bodyMessage := msg }).2.2) (some 401) =
      StatusKey.incorrectKey ∧
    getCustomMessage [(StatusKey.incorrectKey, incorrectMsg)]
      (resolveStatusKey
        (taggedIncorrect (respInterceptPhase1 g hasU hasL
          { noToken := false, retryFlag := false }
          { httpStatus := some 401, bodyMessage := msg }).2.2) (some 401)) fallbackMsg =
      incorrectMsg := by
  have hstep : respInterceptPhase1 g hasU hasL { noToken := false, retryFlag := false }
      { httpStatus := some 401, bodyMessage := msg } =
      (g, { noToken := false, retryFlag := false }, InterceptStage.rejectTaggedIncorrect) := by
    simp [respInterceptPhase1, hg, hp]
  rw [hstep]
  exact ⟨rfl, rfl, rfl, hg, rfl, rfl⟩

/-- C10 amended witness: a change-password 401 with the literal incorrect
password body, with no refresh in flight, is tagged and routed to the
incorrect category message. -/
theorem password_error_tagged_incorrect_amended_witness :
    (respInterceptPhase1 { isRefreshingToken := false, refreshCalls := 0, logoutCalls := 0 }
      true true { noToken := false, retryFlag := false }
      { httpStatus := some 401, bodyMessage := "Current password is incorrect" }).2.2 =
      InterceptStage.rejectTaggedIncorrect ∧
    (respInterceptPhase1 { isRefreshingToken := false, refreshCalls := 0, logoutCalls := 0 }
      true true { noToken := false, retryFlag := false }
      { httpStatus := some 401, bodyMessage := "Current password is incorrect" }).1.refreshCalls =
      ({ isRefreshingToken := false, refreshCalls := 0, logoutCalls := 0 } :
        GatewayState).refreshCalls ∧
    (respInterceptPhase1 { isRefreshingToken := false, refreshCalls := 0, logoutCalls := 0 }
      true true { noToken := false, retryFlag := false }
      { httpStatus := some 401, bodyMessage := "Current password is incorrect" }).1.logoutCalls =
      ({ isRefreshingToken := false, refreshCalls := 0, logoutCalls := 0 } :
        GatewayState).logoutCalls ∧
    (respInterceptPhase1 { isRefreshingToken := false, refreshCalls := 0, logoutCalls := 0 }
      true true { noToken := false, retryFlag := false }
      { httpStatus := some 401,
        bodyMessage := "Current password is incorrect" }).1.isRefreshingToken = false ∧
    resolveStatusKey (taggedIncorrect
      (respInterceptPhase1 { isRefreshingToken := false, refreshCalls := 0, logoutCalls := 0 }
        true true { noToken := false, retryFlag := false }
        { httpStatus := some 401, bodyMessage := "Current password is incorrect" }).2.2)
      (some 401) = StatusKey.incorrectKey ∧
    getCustomMessage [(StatusKey.incorrectKey, "Current password is incorrect")]
      (resolveStatusKey (taggedIncorrect
        (respInterceptPhase1 { isRefreshingToken := false, refreshCalls := 0, logoutCalls := 0 }
          true true { noToken := false, retryFlag := false }
          { httpStatus := some 401, bodyMessage := "Current password is incorrect" }).2.2)
        (some 401)) "An error occurred" = "Current password is incorrect" :=
  password_error_tagged_incorrect_amended
    { isRefreshingToken := false, refreshCalls := 0, logoutCalls := 0 }
    "Current password is incorrect" rfl rfl true true
    "Current password is incorrect" "An error occurred"
